import Mathlib

/-!
Verification of the query-adaptive retrieval core of the codechat-ai backend.

This file gives a shallow embedding, in Lean 4, of the decision logic of
src/backend/embed_store_v2.py (class QueryAnalyzer and the result-processing
loop of EnhancedPineconeManager.smart_retrieve) and of the readiness checks of
src/backend/main.py (the chat endpoint guard and get_session_info's has_data),
and proves or refutes the frozen specification claims about them.

Conventions of the embedding:
* Python strings are Lean String; all concrete inputs in this development are
  ASCII, and the Python string operations used by the source (str.lower,
  str.split, substring membership, len) agree with the Lean models below on
  ASCII input.
* Python integers that are only ever non-negative in the source (token budgets,
  counts, top-k values) are modelled as Nat; the one integer division in the
  source (base_k // 2, len(text) // 4) is Nat division, which agrees with
  Python floor division on non-negative operands.
* The two regular expressions of _assess_specificity are modelled by a small
  executable backtracking engine (RE, runRE below) whose alternative ordering,
  greediness and word-boundary semantics follow Python's re module; findall
  counting follows re.findall's leftmost, non-overlapping scan.
-/

/-! ### Python string primitives used by the source -/

/-- Model of Python str.lower() (ASCII fragment): lower-case every character.
Lean's Char.toLower lower-cases exactly the ASCII upper-case letters, which
agrees with Python on ASCII input. -/
def pyLower (s : String) : String :=
  String.mk (s.data.map Char.toLower)

/-- The whitespace characters recognised by Python str.split() with no
argument: space, tab, newline, carriage return, vertical tab, form feed. -/
def pyIsSpace (c : Char) : Bool :=
  c = ' ' || c = '\t' || c = '\n' || c = '\r' || c = '\x0b' || c = '\x0c'

/-- Worker for pySplit: walk the character list keeping the (reversed) current
word in acc; whitespace runs end words, and empty words are never produced. -/
def pySplitGo : List Char → List Char → List String
  | [], acc => if acc.isEmpty then [] else [String.mk acc.reverse]
  | c :: rest, acc =>
    if pyIsSpace c then
      if acc.isEmpty then pySplitGo rest []
      else String.mk acc.reverse :: pySplitGo rest []
    else pySplitGo rest (c :: acc)

/-- Model of Python str.split() with no argument: split on runs of whitespace,
discarding empty tokens. -/
def pySplit (s : String) : List String := pySplitGo s.data []

/-- Does sub occur as a contiguous sublist of l? (Worker for pyIn.) -/
def listContainsSub (sub : List Char) : List Char → Bool
  | [] => sub.isEmpty
  | c :: rest => sub.isPrefixOf (c :: rest) || listContainsSub sub rest

/-- Model of the Python expression needle in hay on strings: substring test. -/
def pyIn (needle hay : String) : Bool :=
  listContainsSub needle.data hay.data

/-! ### QueryAnalyzer keyword lists (embed_store_v2.py lines 24-27) -/

/-- self.summary_keywords from QueryAnalyzer.__init__. -/
def summary_keywords : List String :=
  ["summary", "summarize", "overview", "explain", "describe", "what is", "tell me about"]

/-- self.analysis_keywords from QueryAnalyzer.__init__. -/
def analysis_keywords : List String :=
  ["analyze", "analysis", "architecture", "pattern", "structure", "design", "flow"]

/-- self.bug_keywords from QueryAnalyzer.__init__. -/
def bug_keywords : List String :=
  ["bug", "error", "issue", "problem", "fix", "debug", "vulnerability", "security", "improvements"]

/-- self.specific_keywords from QueryAnalyzer.__init__. -/
def specific_keywords : List String :=
  ["function", "method", "class", "variable", "import", "specific", "find"]

/-! ### QueryAnalyzer._classify_intent (lines 53-64) -/

/-- QueryAnalyzer._classify_intent: test the four keyword lists for substring
occurrence in the given (already lower-cased by the caller) query, in the fixed
priority order summary, analysis, bug_check, specific; no match gives general. -/
def classify_intent (query : String) : String :=
  if summary_keywords.any (fun keyword => pyIn keyword query) then "summary"
  else if analysis_keywords.any (fun keyword => pyIn keyword query) then "analysis"
  else if bug_keywords.any (fun keyword => pyIn keyword query) then "bug_check"
  else if specific_keywords.any (fun keyword => pyIn keyword query) then "specific"
  else "general"

/-! ### QueryAnalyzer._assess_complexity (lines 66-76) -/

/-- The local word_count of _assess_complexity: len(query.split()). -/
def word_count (query : String) : Nat := (pySplit query).length

/-- The local question_words of _assess_complexity:
len([w for w in query.split() if w in ['what','how','why','when','where','which']]). -/
def question_words (query : String) : Nat :=
  ((pySplit query).filter
    (fun w => (["what", "how", "why", "when", "where", "which"] : List String).contains w)).length

/-- QueryAnalyzer._assess_complexity: thresholds on word count and
interrogative count. -/
def assess_complexity (query : String) : String :=
  if word_count query > 15 ∨ question_words query > 2 then "high"
  else if word_count query > 8 ∨ question_words query > 1 then "medium"
  else "low"

/-! ### QueryAnalyzer._calculate_base_k (lines 90-100) -/

/-- QueryAnalyzer._calculate_base_k: the fixed lookup table base_values,
read with default row general for an unknown intent (dict.get default); the
complexity key is always one of low, medium, high at every call site. -/
def calculate_base_k (intent complexity : String) : Nat :=
  let row : Nat × Nat × Nat :=
    if intent = "specific" then (3, 5, 8)
    else if intent = "general" then (5, 8, 12)
    else if intent = "summary" then (8, 15, 25)
    else if intent = "analysis" then (10, 18, 30)
    else if intent = "bug_check" then (12, 20, 35)
    else (5, 8, 12)
  if complexity = "low" then row.1
  else if complexity = "medium" then row.2.1
  else row.2.2

/-! ### A small model of the Python re fragment used by _assess_specificity

The source counts matches of the two patterns
  CamelCase:      \b[A-Z][a-z]*[A-Z][a-zA-Z]*\b
  code patterns:  \b\w+\(\)|[\w\.]+\.\w+|\w+\[\]
with re.findall.  The engine below implements exactly the constructs these
patterns use: single-character classes, concatenation, alternation (leftmost
alternative preferred), greedy star, and the zero-width word-boundary
assertion.  runRE returns all ways to match a pattern at the current position
as (last consumed character, remaining input) pairs, ordered by Python's
backtracking preference (greedy, left alternative first); the head of the list
is the match Python's engine produces.  The fuel argument strictly decreases on
every recursive call so the function is structurally recursive and reduces in
the kernel; every star iteration is forced to consume at least one character
(the filter below), so fuel 2 * (input length) + 64 is more than the deepest
possible call chain for the fixed patterns of this file (at most 16 nodes each)
and the fuel-exhausted branch is never reached at the top-level fuel used here. -/

/-- Regular-expression abstract syntax: exactly the constructs appearing in the
two patterns of _assess_specificity. -/
inductive RE where
  | cls (p : Char → Bool)
  | seq (a b : RE)
  | alt (a b : RE)
  | star (r : RE)
  | wb

/-- Python \w on ASCII input: letters, digits, underscore. -/
def isWordCh (c : Char) : Bool :=
  ('A' ≤ c && c ≤ 'Z') || ('a' ≤ c && c ≤ 'z') || ('0' ≤ c && c ≤ '9') || c = '_'

/-- Is there a word boundary between the previously consumed character (none at
the start of the string) and the next input character (none at the end)? -/
def wordBoundary (prev : Option Char) (s : List Char) : Bool :=
  (match prev with | none => false | some c => isWordCh c)
    != (match s with | [] => false | c :: _ => isWordCh c)

/-- All matches of a pattern at the current position, in Python backtracking
order; each result is the last consumed character plus the remaining input. -/
def runRE : Nat → RE → Option Char → List Char → List (Option Char × List Char)
  | 0, _, _, _ => []
  | _ + 1, .cls p, _, s =>
    match s with
    | [] => []
    | c :: rest => if p c then [(some c, rest)] else []
  | _ + 1, .wb, prev, s => if wordBoundary prev s then [(prev, s)] else []
  | fuel + 1, .seq a b, prev, s =>
    (runRE fuel a prev s).flatMap (fun pr => runRE fuel b pr.1 pr.2)
  | fuel + 1, .alt a b, prev, s =>
    runRE fuel a prev s ++ runRE fuel b prev s
  | fuel + 1, .star r, prev, s =>
    ((runRE fuel r prev s).filter (fun pr => pr.2.length < s.length)).flatMap
      (fun pr => runRE fuel (.star r) pr.1 pr.2) ++ [(prev, s)]

/-- One-or-more, greedy: r+ is r followed by r*. -/
def rePlus (r : RE) : RE := .seq r (.star r)

/-- A literal character as a pattern. -/
def reChr (c : Char) : RE := .cls (fun x => x = c)

/-- Character class [A-Z]. -/
def clsUpper : RE := .cls (fun c => 'A' ≤ c && c ≤ 'Z')

/-- Character class [a-z]. -/
def clsLower : RE := .cls (fun c => 'a' ≤ c && c ≤ 'z')

/-- Character class [a-zA-Z]. -/
def clsAlpha : RE := .cls (fun c => ('A' ≤ c && c ≤ 'Z') || ('a' ≤ c && c ≤ 'z'))

/-- The CamelCase pattern of _assess_specificity. -/
def camelRE : RE :=
  .seq .wb (.seq clsUpper (.seq (.star clsLower) (.seq clsUpper (.seq (.star clsAlpha) .wb))))

/-- The code-shape pattern of _assess_specificity: three alternatives, tried in
order at each position, for a call like name(), dotted access a.b, and name[]. -/
def codePatternRE : RE :=
  .alt (.seq .wb (.seq (rePlus (.cls isWordCh)) (.seq (reChr '(') (reChr ')'))))
    (.alt (.seq (rePlus (.cls (fun c => isWordCh c || c = '.')))
            (.seq (reChr '.') (rePlus (.cls isWordCh))))
      (.seq (rePlus (.cls isWordCh)) (.seq (reChr '[') (reChr ']'))))

/-- Fuel that is ample for the fixed patterns of this file (see the section
comment above). -/
def reFuel (s : List Char) : Nat := 2 * s.length + 64

/-- The re.findall scan: try the pattern at each position from the left; on a
match, count it and resume after the consumed text (non-overlapping); on a
zero-width match or a failure, advance one character.  The first argument is
fuel bounding the number of scan steps; input length + 1 suffices since every
step consumes at least one character of the remaining input. -/
def scanCount : Nat → RE → Option Char → List Char → Nat
  | 0, _, _, _ => 0
  | fuel + 1, re, prev, s =>
    match s with
    | [] => 0
    | c :: rest =>
      match (runRE (reFuel s) re prev s).head? with
      | some pr =>
        if pr.2.length < s.length then 1 + scanCount fuel re pr.1 pr.2
        else 1 + scanCount fuel re (some c) rest
      | none => scanCount fuel re (some c) rest

/-- len(re.findall(pattern, s)) for the pattern fragment modelled here. -/
def reFindallCount (re : RE) (s : String) : Nat :=
  scanCount (s.data.length + 1) re none s.data

/-! ### QueryAnalyzer._assess_specificity (lines 78-88) -/

/-- QueryAnalyzer._assess_specificity: count CamelCase-like tokens and
code-shape patterns in the query it is given, then threshold.  Note that
analyze_query below passes it the lower-cased query, exactly as the source
does. -/
def assess_specificity (query : String) : String :=
  let specific_terms := reFindallCount camelRE query
  let code_patterns := reFindallCount codePatternRE query
  if specific_terms > 2 ∨ code_patterns > 1 then "high"
  else if specific_terms > 0 ∨ code_patterns > 0 then "medium"
  else "low"

/-! ### QueryAnalyzer.analyze_query (lines 29-51) -/

/-- The record returned by QueryAnalyzer.analyze_query (a Python dict with
these six keys). -/
structure QueryAnalysis where
  intent : String
  complexity : String
  specificity : String
  base_k : Nat
  should_rerank : Bool
  rerank_top_n : Nat
deriving DecidableEq, Repr

/-- QueryAnalyzer.analyze_query: lower-case the query, classify intent,
complexity and specificity on the lower-cased text, look up base_k, and derive
the rerank decision and depth. -/
def analyze_query (query : String) : QueryAnalysis :=
  let query_lower := pyLower query
  let intent := classify_intent query_lower
  let complexity := assess_complexity query_lower
  let specificity := assess_specificity query_lower
  let base_k := calculate_base_k intent complexity
  let should_rerank := (["summary", "analysis", "bug_check"] : List String).contains intent
  { intent := intent
    complexity := complexity
    specificity := specificity
    base_k := base_k
    should_rerank := should_rerank
    rerank_top_n := if should_rerank then max 3 (base_k / 2) else base_k }

/-! ### EnhancedPineconeManager.smart_retrieve, result-processing loop
(embed_store_v2.py lines 292-317)

The network search itself is an external collaborator; what is embedded here is
the deterministic processing of its ranked hit list: token estimation,
budget-bounded greedy acceptance, and the construction of the result records.
The hits are the entries of results['result']['hits'] in rank order. -/

/-- A ranked hit as consumed by the processing loop: the embedded text field
plus the metadata fields the loop reads.  The relevance score is a Python
float that the loop copies through without arithmetic; it is modelled as an
integer code since no claim touches its value. -/
structure Hit where
  chunk_text : String
  file_name : String
  file_path : String
  language : String
  score : Int
deriving DecidableEq, Repr

/-- One element of the processed_results list built by smart_retrieve. -/
structure ProcessedChunk where
  text : String
  file_name : String
  file_path : String
  language : String
  score : Int
  reranked : Bool
deriving DecidableEq, Repr

/-- The local estimated_tokens of the loop: len(chunk_text) // 4. -/
def estimated_tokens (text : String) : Nat := text.length / 4

/-- The for-loop of smart_retrieve over the ranked hits, carrying the running
total_tokens: a hit whose estimated cost would push the total over max_tokens
triggers the break (dropping it and every later hit); otherwise the hit is
appended with the query-level reranked flag and the total is increased. -/
def processHits (should_rerank : Bool) (max_tokens : Nat) :
    List Hit → Nat → List ProcessedChunk
  | [], _ => []
  | hit :: rest, total_tokens =>
    let est := estimated_tokens hit.chunk_text
    if total_tokens + est > max_tokens then []
    else
      { text := hit.chunk_text
        file_name := hit.file_name
        file_path := hit.file_path
        language := hit.language
        score := hit.score
        reranked := should_rerank } :: processHits should_rerank max_tokens rest (total_tokens + est)

/-- smart_retrieve after the search call returned the given ranked hits: the
query analysis supplies the reranked flag, and the loop starts with
total_tokens = 0.  max_tokens defaults to 8000 at the call sites. -/
def smart_retrieve_process (query : String) (hits : List Hit) (max_tokens : Nat) :
    List ProcessedChunk :=
  processHits (analyze_query query).should_rerank max_tokens hits 0

/-! ### Session state and readiness (main.py) -/

/-- The process-wide current_session dict of main.py: namespace string, root
path (None until an upload binds it; Python also treats the empty string as
falsy in the chat guard), and files_processed count. -/
structure Session where
  sessionNamespace : String
  path : Option String
  files_processed : Nat
deriving DecidableEq, Repr

/-- Python truthiness of the path slot: None and the empty string are falsy. -/
def pathTruthy : Option String → Bool
  | none => false
  | some p => p ≠ ""

/-- The structured response the chat endpoint returns without invoking
retrieval: its success flag and the metadata chunks_found value (the message
text accompanies them in the source). -/
structure NotReadyResponse where
  success : Bool
  chunks_found : Nat
deriving DecidableEq, Repr

/-- What the chat endpoint does after its guard: either answer immediately
with the structured not-ready response, or proceed to smart_retrieve. -/
inductive ChatAction where
  | respondNotReady (r : NotReadyResponse)
  | invokeRetrieval
deriving DecidableEq, Repr

/-- The guard at the top of the chat endpoint (main.py lines 283-288):
if not current_session.get("path") or current_session.get("files_processed", 0) == 0,
return the structured not-ready JSON (success False, chunks_found 0);
otherwise call smart_retrieve.  Note that, unlike get_session_info, this guard
never consults the file system. -/
def chat_guard (s : Session) : ChatAction :=
  if ¬ pathTruthy s.path ∨ s.files_processed = 0 then
    .respondNotReady { success := false, chunks_found := 0 }
  else .invokeRetrieval

/-- The has_data readiness value of get_session_info (main.py lines 361-365),
which is also the spec's is_ready: path is not None, the path exists on disk,
and files_processed > 0.  The file system is abstracted as the predicate
fsExists. -/
def has_data (fsExists : String → Bool) (s : Session) : Bool :=
  match s.path with
  | none => false
  | some p => fsExists p && decide (s.files_processed > 0)

/-! ### Helper lemmas -/

/-- The executable substring test agrees with the mathematical contiguous
sublist relation. -/
theorem listContainsSub_iff (sub : List Char) :
    ∀ l : List Char, listContainsSub sub l = true ↔ sub <:+: l := by
  intro l
  induction l with
  | nil =>
    simp only [listContainsSub, List.isEmpty_iff, List.infix_nil]
  | cons c rest ih =>
    simp only [listContainsSub, Bool.or_eq_true, List.isPrefixOf_iff_prefix, ih,
      List.infix_cons_iff]

/-- pyIn is the substring relation on the underlying character lists. -/
theorem pyIn_iff (needle hay : String) :
    pyIn needle hay = true ↔ needle.data <:+: hay.data :=
  listContainsSub_iff needle.data hay.data

/-- A keyword list has some member occurring in the query exactly when the
Python any(... in ...) test succeeds. -/
theorem any_pyIn_iff (ks : List String) (q : String) :
    (ks.any fun keyword => pyIn keyword q) = true ↔
      ∃ k ∈ ks, k.data <:+: q.data := by
  simp only [List.any_eq_true, pyIn_iff]

/-- classify_intent only ever returns one of the five intent labels. -/
theorem classify_intent_cases (q : String) :
    classify_intent q = "summary" ∨ classify_intent q = "analysis" ∨
    classify_intent q = "bug_check" ∨ classify_intent q = "specific" ∨
    classify_intent q = "general" := by
  unfold classify_intent
  split_ifs <;> simp

/-- assess_complexity only ever returns one of the three complexity labels. -/
theorem assess_complexity_cases (q : String) :
    assess_complexity q = "low" ∨ assess_complexity q = "medium" ∨
    assess_complexity q = "high" := by
  unfold assess_complexity
  split_ifs <;> simp

/-- Every record built by the processing loop carries the loop-level reranked
flag, regardless of position and of the running total. -/
theorem processHits_mem_reranked (flag : Bool) (mt : Nat) :
    ∀ (hits : List Hit) (tot : Nat) (r : ProcessedChunk),
      r ∈ processHits flag mt hits tot → r.reranked = flag := by
  intro hits
  induction hits with
  | nil => intro tot r hr; simp [processHits] at hr
  | cons hit rest ih =>
    intro tot r hr
    rw [processHits] at hr
    by_cases hcut : tot + estimated_tokens hit.chunk_text > mt
    · simp [hcut] at hr
    · simp only [hcut, if_false, List.mem_cons] at hr
      rcases hr with rfl | hr
      · rfl
      · exact ih _ r hr

/-- The texts accepted by the processing loop form a prefix of the ranked
texts, in order. -/
theorem processHits_text_initial_segment (flag : Bool) (mt : Nat) :
    ∀ (hits : List Hit) (tot : Nat),
      ((processHits flag mt hits tot).map (fun r => r.text)) <+:
        (hits.map (fun h => h.chunk_text)) := by
  intro hits
  induction hits with
  | nil => intro tot; simp [processHits]
  | cons hit rest ih =>
    intro tot
    rw [processHits]
    by_cases hcut : tot + estimated_tokens hit.chunk_text > mt
    · simp [hcut]
    · simpa [hcut] using ih (tot + estimated_tokens hit.chunk_text)

/-- Budget soundness of the loop: starting from a running total within budget,
the total estimated cost of the accepted records, plus the starting total,
never exceeds the budget. -/
theorem processHits_sum_le (flag : Bool) (mt : Nat) :
    ∀ (hits : List Hit) (tot : Nat), tot ≤ mt →
      tot + ((processHits flag mt hits tot).map
        (fun r => estimated_tokens r.text)).sum ≤ mt := by
  intro hits
  induction hits with
  | nil => intro tot htot; simpa [processHits]
  | cons hit rest ih =>
    intro tot htot
    rw [processHits]
    by_cases hcut : tot + estimated_tokens hit.chunk_text > mt
    · simpa [hcut]
    · have hle : tot + estimated_tokens hit.chunk_text ≤ mt := Nat.le_of_not_lt hcut
      have := ih (tot + estimated_tokens hit.chunk_text) hle
      simp only [hcut, if_false, List.map_cons, List.sum_cons]
      omega

/-! ### Claim C1 -/

/-- Claim C1, counterexample: for the query "explain the architecture of this
project", analyze_query does NOT return intent analysis with base_k 10 and
rerank_top_n 5 as claimed: the summary keyword "explain" occurs in the query
and summary is tested before analysis. -/
theorem claim1_scenario_counterexample :
    ¬ ((analyze_query "explain the architecture of this project").intent = "analysis"
       ∧ (analyze_query "explain the architecture of this project").base_k = 10
       ∧ (analyze_query "explain the architecture of this project").rerank_top_n = 5) := by
  decide

/-- Claim C1 as amended: for the query "explain the architecture of this
project", analyze_query returns intent summary (the summary keyword "explain"
matches before the analysis keyword "architecture"), complexity low (6 words,
0 interrogatives), specificity low, base_k 8, should_rerank true, and
rerank_top_n = max(3, 8 // 2) = 4. -/
theorem claim1_scenario_amended :
    analyze_query "explain the architecture of this project" =
      { intent := "summary", complexity := "low", specificity := "low",
        base_k := 8, should_rerank := true, rerank_top_n := 4 } := by
  decide

/-! ### Claim C2 -/

/-- Claim C2 (code bug evidence): analyze_query hands _assess_specificity the
lower-cased query, so the CamelCase pattern (which requires capital letters)
can never match and the query "MyClass MyClass MyClass", which the claim says
has specificity high, is assigned specificity low; applying the assessor to
the raw query as the claim describes would indeed give high. -/
theorem claim2_specificity_lowercased :
    (analyze_query "MyClass MyClass MyClass").specificity = "low"
    ∧ assess_specificity "MyClass MyClass MyClass" = "high" := by
  constructor
  · decide
  · decide

/-! ### Claim C9 -/

/-- Claim C9: the base_k lookup table is strictly monotone in complexity for
every intent row, and strictly monotone along the intent order specific,
general, summary, analysis, bug_check in every complexity column. -/
theorem claim9_base_k_monotone :
    ((calculate_base_k "specific" "low" < calculate_base_k "specific" "medium"
      ∧ calculate_base_k "specific" "medium" < calculate_base_k "specific" "high")
     ∧ (calculate_base_k "general" "low" < calculate_base_k "general" "medium"
      ∧ calculate_base_k "general" "medium" < calculate_base_k "general" "high")
     ∧ (calculate_base_k "summary" "low" < calculate_base_k "summary" "medium"
      ∧ calculate_base_k "summary" "medium" < calculate_base_k "summary" "high")
     ∧ (calculate_base_k "analysis" "low" < calculate_base_k "analysis" "medium"
      ∧ calculate_base_k "analysis" "medium" < calculate_base_k "analysis" "high")
     ∧ (calculate_base_k "bug_check" "low" < calculate_base_k "bug_check" "medium"
      ∧ calculate_base_k "bug_check" "medium" < calculate_base_k "bug_check" "high"))
    ∧ ((calculate_base_k "specific" "low" < calculate_base_k "general" "low"
      ∧ calculate_base_k "general" "low" < calculate_base_k "summary" "low"
      ∧ calculate_base_k "summary" "low" < calculate_base_k "analysis" "low"
      ∧ calculate_base_k "analysis" "low" < calculate_base_k "bug_check" "low")
     ∧ (calculate_base_k "specific" "medium" < calculate_base_k "general" "medium"
      ∧ calculate_base_k "general" "medium" < calculate_base_k "summary" "medium"
      ∧ calculate_base_k "summary" "medium" < calculate_base_k "analysis" "medium"
      ∧ calculate_base_k "analysis" "medium" < calculate_base_k "bug_check" "medium")
     ∧ (calculate_base_k "specific" "high" < calculate_base_k "general" "high"
      ∧ calculate_base_k "general" "high" < calculate_base_k "summary" "high"
      ∧ calculate_base_k "summary" "high" < calculate_base_k "analysis" "high"
      ∧ calculate_base_k "analysis" "high" < calculate_base_k "bug_check" "high")) := by
  decide

/-! ### Claim C3 -/

/-- Claim C3, counterexample: one hit of text length 8 (estimated cost 2) with
budget 1 yields an empty bundle, so context assembly does NOT always include
at least one hit: the loop breaks before accepting anything when the first
hit already exceeds the budget. -/
theorem claim3_counterexample :
    smart_retrieve_process "hi"
      [{ chunk_text := "aaaaaaaa", file_name := "f", file_path := "p",
         language := "python", score := 0 }] 1 = [] := by
  decide

/-- Claim C3 as amended: for every query and non-empty hit list, the bundle
contains at least one hit exactly when the first hit's estimated token cost
(len(text) // 4) fits the budget; when the budget is smaller than the first
hit's cost, the bundle is empty. -/
theorem claim3_first_hit_amended (query : String) (h : Hit) (t : List Hit) (budget : Nat) :
    (estimated_tokens h.chunk_text ≤ budget →
      smart_retrieve_process query (h :: t) budget ≠ [])
    ∧ (budget < estimated_tokens h.chunk_text →
      smart_retrieve_process query (h :: t) budget = []) := by
  constructor
  · intro hle
    have hnot : ¬ 0 + estimated_tokens h.chunk_text > budget := by omega
    simp only [smart_retrieve_process, processHits, hnot, if_false]
    exact List.cons_ne_nil _ _
  · intro hlt
    have hgt : 0 + estimated_tokens h.chunk_text > budget := by omega
    simp only [smart_retrieve_process, processHits, hgt, if_true]

/-- Claim C3 witness: with a first hit of estimated cost 1 and budget 1, the
amended theorem yields a non-empty bundle. -/
theorem claim3_first_hit_amended_witness :
    smart_retrieve_process "hi"
      [{ chunk_text := "aaaa", file_name := "f", file_path := "p",
         language := "python", score := 0 }] 1 ≠ [] :=
  (claim3_first_hit_amended "hi"
    { chunk_text := "aaaa", file_name := "f", file_path := "p",
      language := "python", score := 0 } [] 1).1 (by decide)

/-! ### Claim C4 -/

/-- A 400-character text, whose estimated token cost is 100. -/
def t400 (c : Char) : String := String.mk (List.replicate 400 c)

/-- A ranked hit whose text costs an estimated 100 tokens. -/
def hit400 (c : Char) : Hit :=
  { chunk_text := t400 c, file_name := "f", file_path := "p",
    language := "python", score := 0 }

set_option maxRecDepth 100000 in
/-- Claim C4: the accepted hits always form a prefix of the ranked list in
original order and their total estimated cost never exceeds the budget; and
for three hits of estimated cost 100 each with budget 250, exactly the first
two are accepted, in order. -/
theorem claim4_greedy_budget_prefix :
    (∀ (query : String) (hits : List Hit) (budget : Nat),
      ((smart_retrieve_process query hits budget).map (fun r => r.text)) <+:
        (hits.map (fun h => h.chunk_text))
      ∧ ((smart_retrieve_process query hits budget).map
          (fun r => estimated_tokens r.text)).sum ≤ budget)
    ∧ (smart_retrieve_process "hi" [hit400 'a', hit400 'b', hit400 'c'] 250).map
        (fun r => r.text) = [t400 'a', t400 'b'] := by
  refine ⟨fun query hits budget => ⟨processHits_text_initial_segment _ _ hits 0, ?_⟩, ?_⟩
  · simpa using processHits_sum_le (analyze_query query).should_rerank budget hits 0
      (Nat.zero_le budget)
  · rfl

/-! ### Claim C5 -/

/-- If no keyword of the list occurs in the query, the Python any(...) test of
classify_intent is not satisfied. -/
theorem any_pyIn_eq_false_of (ks : List String) (q : String)
    (h : ∀ k ∈ ks, ¬ k.data <:+: q.data) :
    ¬ (ks.any fun keyword => pyIn keyword q) = true := by
  intro hc
  obtain ⟨k, hk, hinf⟩ := (any_pyIn_iff ks q).mp hc
  exact h k hk hinf

/-- Claim C5: intent classification tests the four keyword lists as substrings
of the lower-cased query in the priority order summary, analysis, bug_check,
specific, returning the first matching category, and general when no keyword
of any list occurs; in particular the query "xyz123" gets intent general. -/
theorem claim5_intent_priority (q : String) :
    ((∃ k ∈ summary_keywords, k.data <:+: (pyLower q).data) →
      (analyze_query q).intent = "summary")
    ∧ ((∀ k ∈ summary_keywords, ¬ k.data <:+: (pyLower q).data) →
       (∃ k ∈ analysis_keywords, k.data <:+: (pyLower q).data) →
        (analyze_query q).intent = "analysis")
    ∧ ((∀ k ∈ summary_keywords, ¬ k.data <:+: (pyLower q).data) →
       (∀ k ∈ analysis_keywords, ¬ k.data <:+: (pyLower q).data) →
       (∃ k ∈ bug_keywords, k.data <:+: (pyLower q).data) →
        (analyze_query q).intent = "bug_check")
    ∧ ((∀ k ∈ summary_keywords, ¬ k.data <:+: (pyLower q).data) →
       (∀ k ∈ analysis_keywords, ¬ k.data <:+: (pyLower q).data) →
       (∀ k ∈ bug_keywords, ¬ k.data <:+: (pyLower q).data) →
       (∃ k ∈ specific_keywords, k.data <:+: (pyLower q).data) →
        (analyze_query q).intent = "specific")
    ∧ ((∀ k ∈ summary_keywords, ¬ k.data <:+: (pyLower q).data) →
       (∀ k ∈ analysis_keywords, ¬ k.data <:+: (pyLower q).data) →
       (∀ k ∈ bug_keywords, ¬ k.data <:+: (pyLower q).data) →
       (∀ k ∈ specific_keywords, ¬ k.data <:+: (pyLower q).data) →
        (analyze_query q).intent = "general")
    ∧ (analyze_query "xyz123").intent = "general" := by
  have hint : (analyze_query q).intent = classify_intent (pyLower q) := rfl
  refine ⟨?_, ?_, ?_, ?_, ?_, by decide⟩
  · intro hex
    rw [hint]
    unfold classify_intent
    rw [if_pos ((any_pyIn_iff _ _).mpr hex)]
  · intro hno1 hex
    rw [hint]
    unfold classify_intent
    rw [if_neg (any_pyIn_eq_false_of _ _ hno1), if_pos ((any_pyIn_iff _ _).mpr hex)]
  · intro hno1 hno2 hex
    rw [hint]
    unfold classify_intent
    rw [if_neg (any_pyIn_eq_false_of _ _ hno1), if_neg (any_pyIn_eq_false_of _ _ hno2),
      if_pos ((any_pyIn_iff _ _).mpr hex)]
  · intro hno1 hno2 hno3 hex
    rw [hint]
    unfold classify_intent
    rw [if_neg (any_pyIn_eq_false_of _ _ hno1), if_neg (any_pyIn_eq_false_of _ _ hno2),
      if_neg (any_pyIn_eq_false_of _ _ hno3), if_pos ((any_pyIn_iff _ _).mpr hex)]
  · intro hno1 hno2 hno3 hno4
    rw [hint]
    unfold classify_intent
    rw [if_neg (any_pyIn_eq_false_of _ _ hno1), if_neg (any_pyIn_eq_false_of _ _ hno2),
      if_neg (any_pyIn_eq_false_of _ _ hno3), if_neg (any_pyIn_eq_false_of _ _ hno4)]

/-- Claim C5 witness: the summary keyword "summarize" occurs in the query
"summarize", so the first clause of the priority theorem applies and the
intent is summary. -/
theorem claim5_intent_priority_witness :
    (analyze_query "summarize").intent = "summary" :=
  (claim5_intent_priority "summarize").1
    ⟨"summarize", by decide, (listContainsSub_iff _ _).mp (by decide)⟩

/-! ### Claim C7 -/

/-- Claim C7: complexity is high exactly when the whitespace word count
exceeds 15 or the interrogative count exceeds 2; otherwise it is medium
exactly when the word count exceeds 8 or the interrogative count exceeds 1;
otherwise it is low.  In particular the query "what" gets complexity low and
a 20-word query with 3 interrogatives gets complexity high. -/
theorem claim7_complexity_thresholds (q : String) :
    (assess_complexity q = "high" ↔ (word_count q > 15 ∨ question_words q > 2))
    ∧ (¬ (word_count q > 15 ∨ question_words q > 2) →
        (assess_complexity q = "medium" ↔ (word_count q > 8 ∨ question_words q > 1)))
    ∧ (¬ (word_count q > 15 ∨ question_words q > 2) →
       ¬ (word_count q > 8 ∨ question_words q > 1) →
        assess_complexity q = "low")
    ∧ (analyze_query "what").complexity = "low"
    ∧ assess_complexity
        "what how why one two three four five six seven eight nine ten eleven twelve thirteen fourteen fifteen sixteen seventeen"
        = "high" := by
  refine ⟨?_, ?_, ?_, by decide, by decide⟩
  · by_cases h1 : word_count q > 15 ∨ question_words q > 2
    · exact iff_of_true (by rw [assess_complexity, if_pos h1]) h1
    · refine iff_of_false ?_ h1
      rw [assess_complexity, if_neg h1]
      split_ifs <;> decide
  · intro h1
    rw [assess_complexity, if_neg h1]
    by_cases h2 : word_count q > 8 ∨ question_words q > 1
    · exact iff_of_true (by rw [if_pos h2]) h2
    · exact iff_of_false (by rw [if_neg h2]; decide) h2
  · intro h1 h2
    rw [assess_complexity, if_neg h1, if_neg h2]

/-- Claim C7 witness: the single-word query "what" has word count 1 and
interrogative count 1, so neither threshold fires and the third clause of the
threshold theorem gives complexity low. -/
theorem claim7_complexity_thresholds_witness :
    assess_complexity "what" = "low" :=
  (claim7_complexity_thresholds "what").2.2.1 (by decide) (by decide)

/-! ### Claim C6 -/

/-- Claim C6: for every query, should_rerank holds exactly when the intent is
summary, analysis or bug_check; rerank_top_n is max(3, base_k // 2) when
reranking and base_k otherwise; and whenever reranking is on, rerank_top_n is
between 3 and base_k, which also holds for every rerank-enabled (intent,
complexity) cell of the lookup table. -/
theorem claim6_rerank_policy (q : String) :
    ((analyze_query q).should_rerank = true ↔
      ((analyze_query q).intent = "summary" ∨ (analyze_query q).intent = "analysis"
        ∨ (analyze_query q).intent = "bug_check"))
    ∧ ((analyze_query q).rerank_top_n =
        if (analyze_query q).should_rerank then
          max 3 ((analyze_query q).base_k / 2)
        else (analyze_query q).base_k)
    ∧ ((analyze_query q).should_rerank = true →
        3 ≤ (analyze_query q).rerank_top_n
        ∧ (analyze_query q).rerank_top_n ≤ (analyze_query q).base_k)
    ∧ (∀ i ∈ (["summary", "analysis", "bug_check"] : List String),
       ∀ c ∈ (["low", "medium", "high"] : List String),
        3 ≤ max 3 (calculate_base_k i c / 2)
        ∧ max 3 (calculate_base_k i c / 2) ≤ calculate_base_k i c) := by
  have hs : (analyze_query q).should_rerank =
      (["summary", "analysis", "bug_check"] : List String).contains
        (classify_intent (pyLower q)) := rfl
  have hi : (analyze_query q).intent = classify_intent (pyLower q) := rfl
  refine ⟨?_, rfl, ?_, by decide⟩
  · rw [hs, hi]
    rcases classify_intent_cases (pyLower q) with h | h | h | h | h <;> rw [h] <;> decide
  · intro h
    rw [hs] at h
    rcases classify_intent_cases (pyLower q) with hI | hI | hI | hI | hI <;>
      rw [hI] at h <;>
      first
        | exact absurd h (by decide)
        | (rcases assess_complexity_cases (pyLower q) with hC | hC | hC <;>
            simp only [analyze_query] <;> rw [hI, hC] <;> decide)

/-- Claim C6 witness: for the query "summarize" the rerank bounds hold, and
the (summary, low) cell of the table satisfies them as well. -/
theorem claim6_rerank_policy_witness :
    (3 ≤ (analyze_query "summarize").rerank_top_n
      ∧ (analyze_query "summarize").rerank_top_n ≤ (analyze_query "summarize").base_k)
    ∧ (3 ≤ max 3 (calculate_base_k "summary" "low" / 2)
      ∧ max 3 (calculate_base_k "summary" "low" / 2) ≤ calculate_base_k "summary" "low") :=
  ⟨(claim6_rerank_policy "summarize").2.2.1 (by decide),
   (claim6_rerank_policy "summarize").2.2.2 "summary" (by decide) "low" (by decide)⟩

/-! ### Claim C8 -/

/-- Claim C8, counterexample: in the session state with path set to a location
that does not exist on disk and one processed file, the chat guard proceeds to
retrieval although the session is not ready in the sense of has_data (path
set, path exists, count positive): the chat endpoint never consults the file
system. -/
theorem claim8_counterexample :
    chat_guard { sessionNamespace := "ns", path := some "/gone", files_processed := 1 }
      = .invokeRetrieval
    ∧ has_data (fun _ => false)
        { sessionNamespace := "ns", path := some "/gone", files_processed := 1 } = false := by
  decide

/-- Claim C8 as amended: the chat endpoint invokes retrieval exactly when the
session path is set to a truthy (non-None, non-empty) value and the
processed-file count is positive — existence of the path on disk is not
checked — and in every other state it returns the structured not-ready
response (success false, zero chunks) rather than raising. -/
theorem claim8_guard_amended (s : Session) :
    (chat_guard s = .invokeRetrieval ↔
      (pathTruthy s.path = true ∧ 0 < s.files_processed))
    ∧ (chat_guard s = .invokeRetrieval
      ∨ chat_guard s = .respondNotReady { success := false, chunks_found := 0 }) := by
  constructor
  · unfold chat_guard
    by_cases hp : ¬ pathTruthy s.path = true ∨ s.files_processed = 0
    · rw [if_pos hp]
      refine iff_of_false (by simp) ?_
      rintro ⟨h1, h2⟩
      rcases hp with hp | hp
      · exact hp h1
      · omega
    · rw [if_neg hp]
      push_neg at hp
      exact iff_of_true rfl ⟨hp.1, Nat.pos_of_ne_zero hp.2⟩
  · unfold chat_guard
    split_ifs <;> simp

/-- Claim C8 witness: a session with an existing-looking bound path and two
processed files passes the amended guard characterisation and retrieval is
invoked. -/
theorem claim8_guard_amended_witness :
    chat_guard { sessionNamespace := "ns", path := some "/data/repo", files_processed := 2 }
      = .invokeRetrieval :=
  (claim8_guard_amended
    { sessionNamespace := "ns", path := some "/data/repo", files_processed := 2 }).1.mpr
    ⟨by decide, by decide⟩

/-! ### Claim C10 -/

/-- Claim C10: every chunk returned by one smart_retrieve call carries the
same reranked flag, namely the should_rerank value of that query's analysis,
so the chat handler's metadata read from the first chunk describes all of
them. -/
theorem claim10_uniform_rerank_flag (query : String) (hits : List Hit) (max_tokens : Nat) :
    ∀ r ∈ smart_retrieve_process query hits max_tokens,
      r.reranked = (analyze_query query).should_rerank := by
  intro r hr
  exact processHits_mem_reranked _ _ hits 0 r hr

/-- Claim C10 witness: for the query "hi" and a single cheap hit, the returned
chunk is in the bundle and its reranked flag equals the analysis value. -/
theorem claim10_uniform_rerank_flag_witness :
    ({ text := "abcd", file_name := "f", file_path := "p", language := "python",
       score := 0, reranked := false } : ProcessedChunk) ∈
      smart_retrieve_process "hi"
        [{ chunk_text := "abcd", file_name := "f", file_path := "p",
           language := "python", score := 0 }] 8000
    ∧ ({ text := "abcd", file_name := "f", file_path := "p", language := "python",
         score := 0, reranked := false } : ProcessedChunk).reranked
        = (analyze_query "hi").should_rerank :=
  ⟨by decide,
   claim10_uniform_rerank_flag "hi"
     [{ chunk_text := "abcd", file_name := "f", file_path := "p",
        language := "python", score := 0 }] 8000
     { text := "abcd", file_name := "f", file_path := "p", language := "python",
       score := 0, reranked := false } (by decide)⟩
